import Mathlib

/-!
Verification of the batch-upload orchestrator of the `wc_uploader` repository
(`woocommerce_fifu_uploader.py`).

The development shallowly embeds the core pipeline of the class
`WooCommerceFIFUUploader`:

* slug generation inside `create_product_data` (lines 331-347);
* the per-batch processing `process_batch` in both modes (skip-existing and
  update-existing, lines 1224-1448);
* the bulk endpoints `batch_create_products` (1450-1510) and
  `batch_update_products` (1512-1573);
* the run driver `batch_process_products` (1057-1163);
* the cache builder `load_all_existing_products` (717-801);
* the taxonomy resolvers `get_or_create_category` (489-545) and
  `_get_or_create_brand_term_id` (626-715).

All remote interaction (REST responses, SFTP image publication, per-SKU
search, paginated product listing) is abstracted into oracle functions
collected in `Env`, `CachePages` and `TermEnv`; the embedded functions
replay the Python control flow over those oracles.  Thread pools with
fan-out/fan-in joins are modelled by processing the submitted tasks in
submission order: only order-insensitive quantities (counters, traces as
multisets) are claimed about those stages.  Mutex-guarded double-checked
locking in the taxonomy resolvers is modelled by its lock-serialised
executions (each critical section is atomic, calls compose sequentially).
-/

namespace WcUploader

/-! ## Python string primitives -/

/-- Characters stripped by Python `str.strip()`. -/
def isPySpace (c : Char) : Bool :=
  c == ' ' || c == '\t' || c == '\n' || c == '\r' || c == '\x0b' || c == '\x0c'

def stripChars (l : List Char) : List Char :=
  ((l.dropWhile isPySpace).reverse.dropWhile isPySpace).reverse

/-- Python `str.strip()`. -/
def pyStrip (s : String) : String := ⟨stripChars s.data⟩

/-- Python `str.lower()` (on the ASCII range relevant to SKUs and slugs). -/
def pyLower (s : String) : String := ⟨s.data.map Char.toLower⟩

/-! ## Slug generation (`create_product_data`, lines 331-347)

`product_slug = re.sub(r'[^a-z0-9-]', '-', product_slug)` followed by
`re.sub(r'-+', '-', ...)`, `.strip('-')` and the
`f"product-{int(time.time())}"` fallback. -/

/-- The character class `[a-z0-9-]` of the sanitising regex. -/
def slugCharOk (c : Char) : Bool :=
  ('a' ≤ c && c ≤ 'z') || ('0' ≤ c && c ≤ '9') || c == '-'

/-- Models `re.sub(r'[^a-z0-9-]', '-', s)`. -/
def subNonSlug (l : List Char) : List Char :=
  l.map fun c => if slugCharOk c then c else '-'

/-- Models `re.sub(r'-+', '-', s)`: collapse every run of hyphens to one. -/
def collapseHyphens (l : List Char) : List Char :=
  l.foldr (fun c acc => if c == '-' && acc.head? == some '-' then acc else c :: acc) []

/-- Python `str.strip('-')`. -/
def stripHyphens (l : List Char) : List Char :=
  ((l.dropWhile (· == '-')).reverse.dropWhile (· == '-')).reverse

def sanitizeSlug (l : List Char) : List Char :=
  stripHyphens (collapseHyphens (subNonSlug l))

/-- One decimal digit character, as produced by Python `str` of an `int`. -/
def decDigit (d : Nat) : Char :=
  if d == 1 then '1' else if d == 2 then '2' else if d == 3 then '3'
  else if d == 4 then '4' else if d == 5 then '5' else if d == 6 then '6'
  else if d == 7 then '7' else if d == 8 then '8' else if d == 9 then '9'
  else '0'

/-- Fuel-driven decimal rendering; fuel `n` suffices for value `n`. -/
def decReprAux : Nat → Nat → List Char → List Char
  | 0, _, acc => acc
  | fuel + 1, n, acc =>
      if n == 0 then acc else decReprAux fuel (n / 10) (decDigit (n % 10) :: acc)

/-- Python `str(n)` for a natural number, as used by `f"product-{int(time.time())}"`. -/
def decRepr (n : Nat) : List Char :=
  if n == 0 then ['0'] else decReprAux n n []

/-- The slug of `create_product_data`: lowered SKU when the (stripped) SKU is
non-empty, else the transliterated full name; sanitised to `[a-z0-9-]`,
hyphen runs collapsed, edge hyphens stripped, timestamp fallback if empty. -/
def productSlug (sku : String) (translitFullName : String) (ts : Nat) : String :=
  let raw := if sku == "" then translitFullName else pyLower sku
  let cleaned := sanitizeSlug raw.data
  if cleaned.isEmpty then ⟨"product-".data ++ decRepr ts⟩ else ⟨cleaned⟩

/-! ## Data model -/

/-- A normalised CSV row as consumed by the orchestrator (only the fields the
verified logic inspects: `SKU`, `Name`, `Brand`). -/
structure Row where
  sku : String
  name : String := ""
  brand : Option String := none
  deriving Repr, DecidableEq, Inhabited

/-- The wire payload assembled by `create_product_data`, restricted to the
fields the batch logic reads back: the `sku` key (removable, since
`batch_update_products` pops it), the generated `slug`, and the `id` attached
before a bulk update. -/
structure ProductData where
  sku : Option String
  slug : String := ""
  id : Option Nat := none
  deriving Repr, DecidableEq, Inhabited

/-- A product object as returned by the remote API (batch-create/update
responses and single-SKU search). -/
structure ProductInfo where
  id : Nat
  sku : String := ""
  deriving Repr, DecidableEq, Inhabited

/-- One entry of the parallel result array of a bulk-create call:
an object with a truthy `id`, an object with an `error` member, or anything
else (`Неизвестный ответ`). -/
inductive ItemResult where
  | created (info : ProductInfo)
  | errorRes (code : String) (msg : String)
  | other
  deriving Repr, DecidableEq

/-- Outcome of one `POST products/batch {'create': chunk}` call: an HTTP-200
response with its parallel array, or a transport/HTTP/timeout failure. -/
inductive ChunkResp where
  | ok (items : List ItemResult)
  | httpFail
  deriving Repr, DecidableEq

/-- One entry of the parallel result array of a bulk-update call. -/
inductive UpdItemResult where
  | updOk (info : ProductInfo)
  | updErr (id : Nat) (msg : String)
  deriving Repr, DecidableEq

/-- Outcome of one `POST products/batch {'update': chunk}` call. -/
inductive UpdChunkResp where
  | ok (items : List UpdItemResult)
  | httpFail
  deriving Repr, DecidableEq

/-- Outcome of `find_existing_product_by_sku`: a product, an empty search
result, or a raised exception. -/
inductive SearchOutcome where
  | found (info : ProductInfo)
  | notFound
  | excep
  deriving Repr, DecidableEq

/-- A product summary as listed by the cache warm-up (`_fields=id,sku,attributes`);
`brand` is the first option of the first attribute named `brand`, if any. -/
structure CachedProduct where
  sku : String
  brand : Option String := none
  deriving Repr, DecidableEq

/-- Outcome of fetching one listing page during cache warm-up. -/
inductive PageResp where
  | ok (items : List CachedProduct)
  | fail
  deriving Repr, DecidableEq

/-- The paginated product listing presented to `load_all_existing_products`:
page 1 (`none` models a non-200 status) and the remaining pages. -/
structure CachePages where
  firstPage : Option (List CachedProduct)
  restPages : List PageResp

/-- The remote world of one run: image publication per SKU, payload-assembly
exceptions, the transliteration of a row's full name (delegated to a Unicode
library in the source), the current timestamp, the bulk endpoints, the
single-SKU search, and the product listing. -/
structure Env where
  imageUrl : String → Option String
  prepFails : Row → Bool
  translitName : Row → String
  timeNow : Nat
  createResp : List ProductData → ChunkResp
  searchBySku : String → SearchOutcome
  updateResp : List ProductData → UpdChunkResp
  pages : CachePages

/-- The parallel-array contract of the bulk-create endpoint (spec §6): an
HTTP-200 response carries exactly one result entry per submitted payload. -/
def CreateRespWF (env : Env) : Prop :=
  ∀ chunk items, env.createResp chunk = .ok items → items.length = chunk.length

/-- The parallel-array contract of the bulk-update endpoint. -/
def UpdateRespWF (env : Env) : Prop :=
  ∀ chunk items, env.updateResp chunk = .ok items → items.length = chunk.length

/-! ## Payload assembly -/

/-- The slice of `create_product_data` that the batch logic depends on. -/
def create_product_data (env : Env) (r : Row) : ProductData :=
  let sku := pyStrip r.sku
  { sku := some sku
    slug := productSlug sku (env.translitName r) env.timeNow
    id := none }

/-- Result of `_prepare_product_data_task`: the assembled payload, or the
error tuple (row without SKU, or an exception during assembly). -/
inductive PrepResult where
  | success (p : ProductData)
  | error
  deriving Repr, DecidableEq

def prepare_product_data_task (env : Env) (r : Row) : PrepResult :=
  if pyStrip r.sku = "" then .error
  else if env.prepFails r then .error
  else .success (create_product_data env r)

def isPrepError : PrepResult → Bool
  | .error => true
  | .success _ => false

def prepSuccessData : PrepResult → Option ProductData
  | .success p => some p
  | .error => none

/-! ## Chunking (`range(0, len, chunk_size)` slicing, sub-chunk size 25) -/

/-- Fuel-driven chunking; fuel `l.length` suffices when `n ≠ 0`. -/
def chunksOfAux (n : Nat) : Nat → List α → List (List α)
  | 0, _ => []
  | _, [] => []
  | fuel + 1, x :: xs => (x :: xs).take n :: chunksOfAux n fuel ((x :: xs).drop n)

/-- Split a list into consecutive chunks of size `n` (last one possibly
shorter), as the Python `for i in range(0, total, n): l[i:i+n]` loop does. -/
def chunksOf (n : Nat) (l : List α) : List (List α) :=
  if n = 0 then [] else chunksOfAux n l.length l

/-! ## Image stage (`_upload_image_task` fan-out, lines 1229-1255) -/

/-- The distinct non-empty SKUs of a batch, in first-occurrence order. -/
def uniqueSkus (rows : List Row) : List String :=
  rows.foldl (fun acc r =>
    let s := pyStrip r.sku
    if s != "" && !(acc.contains s) then acc ++ [s] else acc) []

/-- The `images_urls` dictionary: one upload task per distinct SKU, keeping
only truthy URLs. -/
def upload_image_results (env : Env) (rows : List Row) : List (String × String) :=
  (uniqueSkus rows).filterMap fun s =>
    match env.imageUrl s with
    | some u => if u != "" then some (s, u) else none
    | none => none

/-- Models `_set_external_images_in_parallel`: one image-assignment call per
processed product that has a truthy id, a truthy sku and a URL in
`images_urls`. -/
def set_external_images (prods : List ProductInfo) (images : List (String × String)) :
    List (Nat × String) :=
  prods.filterMap fun p =>
    if p.id != 0 && p.sku != "" then
      match images.lookup p.sku with
      | some u => if u != "" then some (p.id, u) else none
      | none => none
    else none

/-! ## Skip-existing mode (`process_batch`, lines 1260-1320) -/

/-- Accumulator of the pre-filtering loop of skip mode. -/
structure SkipScan where
  keep : List Row := []
  skipped : Nat := 0
  errors : Nat := 0
  deriving Repr, DecidableEq

/-- The pre-filtering loop: rows without SKU are per-row errors, rows whose
lowered SKU is in the existing-product cache are skipped, the rest survive. -/
def skip_filter (cache : List String) : List Row → SkipScan
  | [] => {}
  | r :: rest =>
      let sku := pyStrip r.sku
      let tail := skip_filter cache rest
      if sku = "" then { tail with errors := tail.errors + 1 }
      else if cache.contains (pyLower sku) then { tail with skipped := tail.skipped + 1 }
      else { tail with keep := r :: tail.keep }

def createdWithId : ItemResult → Option ProductInfo
  | .created info => if info.id != 0 then some info else none
  | _ => none

/-- The per-chunk collection loop of `batch_create_products`: an HTTP-200
response contributes its entries that carry a truthy `id`; a failed chunk
contributes nothing. -/
def create_collect (env : Env) : List (List ProductData) → List ProductInfo
  | [] => []
  | c :: cs =>
      (match env.createResp c with
       | .ok items => items.filterMap createdWithId
       | .httpFail => []) ++ create_collect env cs

/-- Models `batch_create_products` (lines 1450-1510). -/
def batch_create_products (env : Env) (products : List ProductData) : List ProductInfo :=
  create_collect env (chunksOf 25 products)

/-- Per-batch counters and remote-call traces. -/
structure BatchOut where
  processed : Nat := 0
  new : Nat := 0
  updated : Nat := 0
  skipped : Nat := 0
  errors : Nat := 0
  ghosts : Nat := 0
  createChunks : List (List ProductData) := []
  updateChunks : List (List ProductData) := []
  imageAssigns : List (Nat × String) := []
  ghostLogs : List String := []
  deriving Repr, DecidableEq

/-- Models `process_batch` with `skip_existing=True` (lines 1260-1320). -/
def process_batch_skip (env : Env) (cache : List String) (rows : List Row) : BatchOut :=
  let images := upload_image_results env rows
  let scan := skip_filter cache rows
  let prepped := scan.keep.map (prepare_product_data_task env)
  let prepErrors := prepped.countP isPrepError
  let products := prepped.filterMap prepSuccessData
  let newly := batch_create_products env products
  { processed := newly.length
    new := newly.length
    updated := 0
    skipped := scan.skipped
    errors := scan.errors + prepErrors + (products.length - newly.length)
    ghosts := 0
    createChunks := chunksOf 25 products
    updateChunks := []
    imageAssigns := set_external_images newly images
    ghostLogs := [] }

/-! ## Update-existing mode (`process_batch`, lines 1322-1448) -/

/-- Python's `sub in s` substring test. -/
def strContains (pat : List Char) : List Char → Bool
  | [] => pat.isEmpty
  | c :: rest => pat.isPrefixOf (c :: rest) || strContains pat rest

/-- The duplicate-SKU classification of a per-item create error
(line 1377). -/
def isDuplicateError (code msg : String) : Bool :=
  code == "woocommerce_rest_product_sku_already_exists" || code == "product_invalid_sku"
  || strContains "already present in the lookup table".data msg.data
  || strContains "Product SKU already exists".data msg.data

/-- Accumulator of the create-response classification of update mode. -/
structure CreateScan where
  newly : List ProductInfo := []
  toUpdate : List ProductData := []
  apiErrors : Nat := 0
  deriving Repr, DecidableEq

/-- Classify the zipped `(original_data, result)` pairs of one HTTP-200
create response (lines 1367-1388). -/
def classify_list : List (ProductData × ItemResult) → CreateScan
  | [] => {}
  | pr :: rest =>
      let tail := classify_list rest
      match pr.2 with
      | .created info =>
          if info.id != 0 then { tail with newly := info :: tail.newly }
          else { tail with apiErrors := tail.apiErrors + 1 }
      | .errorRes code msg =>
          if isDuplicateError code msg then { tail with toUpdate := pr.1 :: tail.toUpdate }
          else { tail with apiErrors := tail.apiErrors + 1 }
      | .other => { tail with apiErrors := tail.apiErrors + 1 }

/-- One create sub-chunk of update mode: a failed request counts the whole
chunk as errors (lines 1389-1398); a response is classified item by item. -/
def classify_chunk (env : Env) (c : List ProductData) : CreateScan :=
  match env.createResp c with
  | .ok items => classify_list (c.zip items)
  | .httpFail => { newly := [], toUpdate := [], apiErrors := c.length }

def combine_scan (a b : CreateScan) : CreateScan :=
  { newly := a.newly ++ b.newly
    toUpdate := a.toUpdate ++ b.toUpdate
    apiErrors := a.apiErrors + b.apiErrors }

/-- The whole create pass of update mode over all 25-item sub-chunks. -/
def update_mode_scan (env : Env) : List (List ProductData) → CreateScan
  | [] => {}
  | c :: cs => combine_scan (classify_chunk env c) (update_mode_scan env cs)

/-- The per-SKU existence lookups for the duplicate-classified payloads
(lines 1410-1428). -/
def duplicate_lookup (env : Env) (toUpdate : List ProductData) :
    List (ProductData × SearchOutcome) :=
  toUpdate.map fun p => (p, env.searchBySku (p.sku.getD ""))

/-- The payloads whose lookup produced a product: the real id is attached. -/
def products_for_batch_update (lk : List (ProductData × SearchOutcome)) :
    List ProductData :=
  lk.filterMap fun pr =>
    match pr.2 with
    | .found info => some { pr.1 with id := some info.id }
    | _ => none

def isFoundOutcome : SearchOutcome → Bool
  | .found _ => true
  | _ => false

/-- Lookups that produced no id (ghost SKU) or raised; each increments
`api_errors_count` (lines 1423-1428). -/
def lookup_fail_count (lk : List (ProductData × SearchOutcome)) : Nat :=
  (lk.filter fun pr => !isFoundOutcome pr.2).length

def isGhostOutcome : SearchOutcome → Bool
  | .notFound => true
  | _ => false

/-- The `👻`-diagnostic log lines, one per SKU whose search returned no
product (line 1424). -/
def ghost_logs (lk : List (ProductData × SearchOutcome)) : List String :=
  lk.filterMap fun pr =>
    match pr.2 with
    | .notFound => some (pr.1.sku.getD "")
    | _ => none

/-- Models `item.pop('sku', None)` before a bulk update (line 1540). -/
def popSku (p : ProductData) : ProductData := { p with sku := none }

def updOkInfo : UpdItemResult → Option ProductInfo
  | .updOk info => some info
  | .updErr _ _ => none

/-- The per-chunk loop of `batch_update_products`: pop `sku`, post the chunk,
collect the entries without an `error` member; also trace each posted
chunk. -/
def update_collect (env : Env) : List (List ProductData) →
    List ProductInfo × List (List ProductData)
  | [] => ([], [])
  | c :: cs =>
      let sent := c.map popSku
      let head := match env.updateResp sent with
        | .ok items => items.filterMap updOkInfo
        | .httpFail => []
      let tail := update_collect env cs
      (head ++ tail.1, sent :: tail.2)

/-- Models `batch_update_products` (lines 1512-1573); returns the successfully
updated products and the posted chunks. -/
def batch_update_products (env : Env) (products : List ProductData) :
    List ProductInfo × List (List ProductData) :=
  update_collect env (chunksOf 25 products)

/-- The payloads that survive assembly in update mode. -/
def prepared_products (env : Env) (rows : List Row) : List ProductData :=
  (rows.map (prepare_product_data_task env)).filterMap prepSuccessData

/-- The assembly failures of update mode (`initial_error_count`). -/
def initial_prep_errors (env : Env) (rows : List Row) : Nat :=
  (rows.map (prepare_product_data_task env)).countP isPrepError

/-- Models `process_batch` with `skip_existing=False` (lines 1322-1448). -/
def process_batch_update (env : Env) (rows : List Row) : BatchOut :=
  let images := upload_image_results env rows
  let initialErrors := initial_prep_errors env rows
  let products := prepared_products env rows
  if products.isEmpty then { errors := initialErrors }
  else
    let scan := update_mode_scan env (chunksOf 25 products)
    let assignsNew := set_external_images scan.newly images
    let lk := duplicate_lookup env scan.toUpdate
    let ghostCount := lookup_fail_count lk
    let forUpdate := products_for_batch_update lk
    let upd := batch_update_products env forUpdate
    let assignsUpd := set_external_images upd.1 images
    { processed := scan.newly.length + upd.1.length
      new := scan.newly.length
      updated := upd.1.length
      skipped := 0
      errors := initialErrors + (scan.apiErrors + ghostCount)
                + (scan.toUpdate.length - upd.1.length)
      ghosts := ghostCount
      createChunks := chunksOf 25 products
      updateChunks := upd.2
      imageAssigns := assignsNew ++ assignsUpd
      ghostLogs := ghost_logs lk }

/-- Models `process_batch` (lines 1224-1448). -/
def process_batch (env : Env) (cache : List String) (skipExisting : Bool)
    (rows : List Row) : BatchOut :=
  if skipExisting then process_batch_skip env cache rows
  else process_batch_update env rows

/-! ## Existing-product cache builder (`load_all_existing_products`, 717-801) -/

def isPageFail : PageResp → Bool
  | .fail => true
  | .ok _ => false

/-- The filtering loop of lines 779-793: keep products with a non-empty
stripped-lowered SKU; when the brand filter set is truthy (non-empty), keep
only products whose extracted brand value is in it. -/
def cache_entry_list (filters : List String) : List CachedProduct → List String
  | [] => []
  | p :: rest =>
      let sku := pyLower (pyStrip p.sku)
      let tail := cache_entry_list filters rest
      if sku = "" then tail
      else if filters.isEmpty then sku :: tail
      else
        match p.brand with
        | some b => if filters.contains (pyLower (pyStrip b)) then sku :: tail else tail
        | none => tail

/-- Concatenate the successfully fetched pages 2..n. -/
def rest_page_items : List PageResp → List CachedProduct
  | [] => []
  | .ok items :: rest => items ++ rest_page_items rest
  | .fail :: rest => rest_page_items rest

/-- Models `load_all_existing_products`: page 1 must be HTTP-200 and every further
page fetch must succeed, otherwise the whole build fails; on success the
cache maps each retained lowered SKU. -/
def load_all_existing_products (pages : CachePages) (filters : List String) :
    Option (List String) :=
  match pages.firstPage with
  | none => none
  | some p1 =>
      if pages.restPages.any isPageFail then none
      else some (cache_entry_list filters (p1 ++ rest_page_items pages.restPages))

/-- Models `set(df['Brand'].dropna().str.strip().str.lower())` (line 1076). -/
def brand_filters (rows : List Row) : List String :=
  rows.foldl (fun acc r =>
    match r.brand with
    | some b =>
        let v := pyLower (pyStrip b)
        if acc.contains v then acc else acc ++ [v]
    | none => acc) []

/-! ## Run driver (`batch_process_products`, lines 1057-1163) -/

/-- The mutable uploader attributes the run driver touches. -/
structure UploaderState where
  existingCache : List String := []
  cacheLoaded : Bool := false
  deriving Repr, DecidableEq

/-- The result dictionary returned by `batch_process_products`; `none` in an
`Option` field models an absent dictionary key ('new'/'updated'/'skipped' are
absent from the fatal cache-failure result of lines 1088-1094). -/
structure RunResult where
  success : Bool
  uploaded : Nat
  new : Option Nat
  updated : Option Nat
  skipped : Option Nat
  errors : Nat
  total : Nat
  deriving Repr, DecidableEq

/-- A finished run: the returned dictionary, the final uploader state, the
number of cache builds performed, and the per-batch traces in order. -/
structure RunOut where
  result : RunResult
  state : UploaderState
  cacheBuilds : Nat
  batches : List BatchOut
  deriving Repr, DecidableEq

/-- The batch loop: `stop_requested` is sampled at the top of each iteration
(`stopAt i` is its value when batch `i` begins); remaining batches are
dropped once it is set. -/
def run_batches (env : Env) (cache : List String) (skipExisting : Bool)
    (stopAt : Nat → Bool) : Nat → List (List Row) → List BatchOut
  | _, [] => []
  | i, b :: rest =>
      if stopAt i then []
      else process_batch env cache skipExisting b ::
           run_batches env cache skipExisting stopAt (i + 1) rest

def sumBy (f : BatchOut → Nat) (bs : List BatchOut) : Nat := (bs.map f).sum

/-- Models `batch_process_products`: cache warm-up (fatal in skip mode when it
fails), the sequential batch loop, and the aggregated result dictionary. -/
def batch_process_products (env : Env) (st : UploaderState) (rows : List Row)
    (skipExisting : Bool) (batchSize : Nat) (stopAt : Nat → Bool) : RunOut :=
  let total := rows.length
  let builds := if skipExisting && !st.cacheLoaded then 1 else 0
  let stReady : Option UploaderState :=
    if skipExisting then
      if st.cacheLoaded then some st
      else
        match load_all_existing_products env.pages (brand_filters rows) with
        | some entries => some { existingCache := entries, cacheLoaded := true }
        | none => none
    else some { existingCache := [], cacheLoaded := true }
  match stReady with
  | none =>
      { result := { success := false, uploaded := 0, new := none, updated := none,
                    skipped := none, errors := 1, total := total }
        state := { existingCache := [], cacheLoaded := false }
        cacheBuilds := builds
        batches := [] }
  | some st2 =>
      let outs := run_batches env st2.existingCache skipExisting stopAt 0
        (chunksOf batchSize rows)
      let errs := sumBy (fun b => b.errors) outs
      { result := { success := errs == 0
                    uploaded := sumBy (fun b => b.processed) outs
                    new := some (sumBy (fun b => b.new) outs)
                    updated := some (sumBy (fun b => b.updated) outs)
                    skipped := some (sumBy (fun b => b.skipped) outs)
                    errors := errs
                    total := total }
        state := st2
        cacheBuilds := builds
        batches := outs }

/-- Every bulk-create payload actually posted during a run. -/
def attempted_creates (out : RunOut) : List ProductData :=
  (out.batches.map fun b => b.createChunks.flatten).flatten

/-! ## Taxonomy resolvers (lines 489-545 and 626-715) -/

/-- A taxonomy term as returned by term search. -/
structure Term where
  name : String
  id : Nat
  deriving Repr, DecidableEq

/-- Outcome of a term search request: a parsed list, a non-OK status, or an
exception. -/
inductive TermSearchResp where
  | ok (terms : List Term)
  | bad
  | excep
  deriving Repr, DecidableEq

/-- Outcome of `POST products/categories`: 201 with the new id, any other
status, or an exception. -/
inductive CatCreateResp where
  | created (id : Nat)
  | failed
  | excep
  deriving Repr, DecidableEq

/-- Outcome of the brand term creation call: an OK response with the new id,
a failure with its status code, whether the body contains `term_exists`, and
the parsed `additional_data` id list (empty when absent or unparsable), or an
exception. -/
inductive BrandCreateResp where
  | created (id : Nat)
  | failed (status : Nat) (textHasTermExists : Bool) (additionalData : List Nat)
  | excep
  deriving Repr, DecidableEq

/-- The remote taxonomy term store. -/
structure TermEnv where
  categorySearch : String → TermSearchResp
  categoryCreate : String → CatCreateResp
  brandSearch : String → TermSearchResp
  brandCreate : String → BrandCreateResp

/-- The taxonomy caches plus counters of the remote calls issued. -/
structure TaxState where
  categoryCache : List (String × Nat) := []
  brandCache : List (String × Nat) := []
  categorySearchCalls : Nat := 0
  categoryCreateCalls : Nat := 0
  brandSearchCalls : Nat := 0
  brandCreateCalls : Nat := 0
  deriving Repr, DecidableEq

/-- The exact case-insensitive name match of both resolvers
(`term['name'].lower() == name.lower()`). -/
def findExactTerm (name : String) : List Term → Option Nat
  | [] => none
  | t :: rest =>
      if pyLower t.name = pyLower name then some t.id else findExactTerm name rest

/-- The creation block of `get_or_create_category` (lines 525-541): a 201
response caches and returns the new id; any other status or an exception
caches nothing and yields `None`. -/
def category_create_step (env : TermEnv) (st : TaxState) (key name : String) :
    TaxState × Option Nat :=
  let st2 := { st with categoryCreateCalls := st.categoryCreateCalls + 1 }
  match env.categoryCreate name with
  | .created id => ({ st2 with categoryCache := (key, id) :: st2.categoryCache }, some id)
  | .failed => (st2, none)
  | .excep => (st2, none)

/-- Models `get_or_create_category` (lines 489-545), in its lock-serialised form:
the cache re-check under the mutex coincides with the first check.  A non-200
search status falls through to creation (the code only guards the match loop
with the status, not the creation); only an exception aborts with `None`. -/
def get_or_create_category (env : TermEnv) (st : TaxState) (categoryName : String) :
    TaxState × Option Nat :=
  if categoryName = "" then (st, none)
  else
    let key := pyLower (pyStrip categoryName)
    match st.categoryCache.lookup key with
    | some id => (st, some id)
    | none =>
        let st1 := { st with categorySearchCalls := st.categorySearchCalls + 1 }
        match env.categorySearch categoryName with
        | .excep => (st1, none)
        | .bad => category_create_step env st1 key categoryName
        | .ok terms =>
            match findExactTerm categoryName terms with
            | some id =>
                ({ st1 with categoryCache := (key, id) :: st1.categoryCache }, some id)
            | none => category_create_step env st1 key categoryName

/-- Models `_get_or_create_brand_term_id` (lines 626-715), lock-serialised: a non-OK
search aborts; a creation failure with status 400, `term_exists` in the body
and a non-empty `additional_data` list recovers (and caches) the first
embedded id; any other failure caches nothing and yields `None`. -/
def get_or_create_brand_term_id (env : TermEnv) (st : TaxState) (brandName : String) :
    TaxState × Option Nat :=
  let key := pyLower (pyStrip brandName)
  match st.brandCache.lookup key with
  | some id => (st, some id)
  | none =>
      let st1 := { st with brandSearchCalls := st.brandSearchCalls + 1 }
      match env.brandSearch brandName with
      | .bad => (st1, none)
      | .excep => (st1, none)
      | .ok terms =>
          match findExactTerm brandName terms with
          | some id =>
              ({ st1 with brandCache := (key, id) :: st1.brandCache }, some id)
          | none =>
              let st2 := { st1 with brandCreateCalls := st1.brandCreateCalls + 1 }
              match env.brandCreate brandName with
              | .created id =>
                  ({ st2 with brandCache := (key, id) :: st2.brandCache }, some id)
              | .failed status txt addl =>
                  if status == 400 && txt then
                    match addl with
                    | a :: _ =>
                        ({ st2 with brandCache := (key, a) :: st2.brandCache }, some a)
                    | [] => (st2, none)
                  else (st2, none)
              | .excep => (st2, none)

/-! ## Concrete scenario inputs -/

def rowB1 : Row := { sku := "B1" }

def rowA1 : Row := { sku := "A1" }

/-- A neutral environment: no images, no assembly failures, bulk calls fail
at transport level (so the parallel-array contracts hold vacuously), an empty
one-page listing. -/
def baseEnv : Env where
  imageUrl := fun _ => none
  prepFails := fun _ => false
  translitName := fun _ => ""
  timeNow := 0
  createResp := fun _ => .httpFail
  searchBySku := fun _ => .notFound
  updateResp := fun _ => .httpFail
  pages := { firstPage := some [], restPages := [] }

/-- A backend whose create call reports every payload as a duplicate SKU and
whose SKU search then finds nothing: the ghost-SKU state. -/
def ghostEnv : Env :=
  { baseEnv with
    createResp := fun c =>
      .ok (c.map fun _ => .errorRes "woocommerce_rest_product_sku_already_exists"
        "Product SKU already exists")
    searchBySku := fun _ => .notFound
    updateResp := fun _ => .ok [] }

/-- Scenario B: the create call reports the duplicate, the search resolves
id 77, the bulk update succeeds. -/
def scenarioBEnv : Env :=
  { baseEnv with
    createResp := fun c =>
      .ok (c.map fun _ => .errorRes "woocommerce_rest_product_sku_already_exists" "")
    searchBySku := fun _ => .found { id := 77, sku := "B1" }
    updateResp := fun c => .ok (c.map fun _ => .updOk { id := 77, sku := "B1" }) }

/-- Scenario C: no image for any SKU, creation succeeds with id 101. -/
def scenarioCEnv : Env :=
  { baseEnv with
    imageUrl := fun _ => none
    createResp := fun c => .ok (c.map fun _ => .created { id := 101, sku := "A1" }) }

/-- A listing whose page-2 fetch errors: the cache build must fail. -/
def failingPagesEnv : Env :=
  { baseEnv with pages := { firstPage := some [], restPages := [.fail] } }

/-- A term store where both search and creation fail (creation with a plain
error, no embedded id). -/
def failingTermEnv : TermEnv where
  categorySearch := fun _ => .ok []
  categoryCreate := fun _ => .failed
  brandSearch := fun _ => .ok []
  brandCreate := fun _ => .failed 500 false []

/-- A term store that already contains the searched terms. -/
def hitTermEnv : TermEnv where
  categorySearch := fun _ => .ok [{ name := "Tools", id := 5 }]
  categoryCreate := fun _ => .failed
  brandSearch := fun _ => .ok [{ name := "Acme", id := 7 }]
  brandCreate := fun _ => .failed 500 false []

/-- Scenario D: the brand term creation races and fails with `term_exists`
carrying `additional_data = [42]`. -/
def scenarioDEnv : TermEnv where
  categorySearch := fun _ => .ok []
  categoryCreate := fun _ => .failed
  brandSearch := fun _ => .ok []
  brandCreate := fun _ => .failed 400 true [42]

/-! # Theorems -/

/-! ## Chunking lemmas -/

theorem chunksOfAux_nil (n fuel : Nat) : chunksOfAux n fuel ([] : List α) = [] := by
  cases fuel <;> rfl

theorem chunksOfAux_fuel (n : Nat) (hn : n ≠ 0) :
    ∀ (fuel : Nat) (l : List α), l.length ≤ fuel →
      chunksOfAux n fuel l = chunksOfAux n l.length l := by
  intro fuel
  induction fuel using Nat.strong_induction_on with
  | _ fuel ih =>
    intro l hl
    match fuel, l with
    | 0, l =>
        have : l = [] := List.eq_nil_of_length_eq_zero (Nat.le_zero.mp hl)
        subst this; rfl
    | f + 1, [] => simp [chunksOfAux_nil]
    | f + 1, x :: xs =>
        have hlen : ((x :: xs).drop n).length ≤ xs.length := by
          simp only [List.length_drop, List.length_cons]
          omega
        have hxf : xs.length ≤ f := by simpa using hl
        simp only [List.length_cons, chunksOfAux]
        rw [ih f (Nat.lt_succ_self f) _ (le_trans hlen hxf),
            ih xs.length (Nat.lt_succ_of_le hxf) _ hlen]

theorem chunksOf_nil (n : Nat) : chunksOf n ([] : List α) = [] := by
  unfold chunksOf
  split <;> simp [chunksOfAux_nil]

theorem chunksOf_cons_eq (n : Nat) (hn : n ≠ 0) (l : List α) (hl : l ≠ []) :
    chunksOf n l = l.take n :: chunksOf n (l.drop n) := by
  match l with
  | [] => exact absurd rfl hl
  | x :: xs =>
      unfold chunksOf
      rw [if_neg hn, if_neg hn]
      have hlen : ((x :: xs).drop n).length ≤ xs.length := by
        simp only [List.length_drop, List.length_cons]
        omega
      simp only [List.length_cons, chunksOfAux]
      rw [chunksOfAux_fuel n hn xs.length _ hlen]

theorem chunksOf_flatten_aux (n : Nat) (hn : n ≠ 0) :
    ∀ (k : Nat) (l : List α), l.length ≤ k → (chunksOf n l).flatten = l := by
  intro k
  induction k with
  | zero =>
      intro l hl
      have : l = [] := List.eq_nil_of_length_eq_zero (Nat.le_zero.mp hl)
      subst this; simp [chunksOf_nil]
  | succ k ih =>
      intro l hl
      match l with
      | [] => simp [chunksOf_nil]
      | x :: xs =>
          rw [chunksOf_cons_eq n hn _ (by simp)]
          have hlen : ((x :: xs).drop n).length ≤ k := by
            simp only [List.length_drop, List.length_cons]
            have : xs.length ≤ k := by simpa using hl
            omega
          simp only [List.flatten_cons, ih _ hlen, List.take_append_drop]

theorem chunksOf_flatten (n : Nat) (hn : n ≠ 0) (l : List α) :
    (chunksOf n l).flatten = l :=
  chunksOf_flatten_aux n hn l.length l le_rfl

/-! ## Slug sanitisation lemmas -/

theorem mem_subNonSlug {l : List Char} {c : Char} (h : c ∈ subNonSlug l) :
    slugCharOk c = true := by
  obtain ⟨a, _, rfl⟩ := List.mem_map.mp h
  by_cases ha : slugCharOk a = true
  · simp [ha]
  · simp only [Bool.not_eq_true] at ha
    simp [ha]
    rfl

theorem collapseHyphens_cons (x : Char) (xs : List Char) :
    collapseHyphens (x :: xs) =
      if x == '-' && (collapseHyphens xs).head? == some '-' then collapseHyphens xs
      else x :: collapseHyphens xs := rfl

theorem mem_collapseHyphens {l : List Char} {c : Char} (h : c ∈ collapseHyphens l) :
    c ∈ l := by
  induction l with
  | nil => simp [collapseHyphens] at h
  | cons x xs ih =>
      rw [collapseHyphens_cons] at h
      by_cases hc : (x == '-' && (collapseHyphens xs).head? == some '-') = true
      · rw [if_pos hc] at h
        exact List.mem_cons_of_mem x (ih h)
      · rw [if_neg hc] at h
        rcases List.mem_cons.mp h with h | h
        · exact h ▸ List.mem_cons_self x xs
        · exact List.mem_cons_of_mem x (ih h)

theorem mem_of_mem_dropWhile {p : Char → Bool} :
    ∀ {l : List Char} {c : Char}, c ∈ l.dropWhile p → c ∈ l := by
  intro l
  induction l with
  | nil => intro c h; simp at h
  | cons x xs ih =>
      intro c h
      rw [List.dropWhile_cons] at h
      by_cases hp : p x = true
      · rw [if_pos hp] at h
        exact List.mem_cons_of_mem x (ih h)
      · rw [if_neg hp] at h
        exact h

theorem mem_stripHyphens {l : List Char} {c : Char} (h : c ∈ stripHyphens l) :
    c ∈ l := by
  unfold stripHyphens at h
  rw [List.mem_reverse] at h
  have h2 := mem_of_mem_dropWhile h
  rw [List.mem_reverse] at h2
  exact mem_of_mem_dropWhile h2

theorem sanitizeSlug_ok {l : List Char} {c : Char} (h : c ∈ sanitizeSlug l) :
    slugCharOk c = true :=
  mem_subNonSlug (mem_collapseHyphens (mem_stripHyphens h))

theorem decDigit_ok (d : Nat) : slugCharOk (decDigit d) = true := by
  unfold decDigit
  repeat' split
  all_goals decide

theorem decReprAux_ok :
    ∀ (fuel n : Nat) (acc : List Char), acc.all slugCharOk = true →
      (decReprAux fuel n acc).all slugCharOk = true := by
  intro fuel
  induction fuel with
  | zero => intro n acc h; simpa [decReprAux] using h
  | succ f ih =>
      intro n acc h
      rw [decReprAux]
      split
      · exact h
      · exact ih _ _ (by simp [List.all_cons, h, decDigit_ok])

theorem decRepr_ok (n : Nat) : (decRepr n).all slugCharOk = true := by
  unfold decRepr
  split
  · decide
  · exact decReprAux_ok n n [] rfl

theorem string_ne_empty_of_data_ne_nil {s : String} (h : s.data ≠ []) : s ≠ "" := by
  intro he
  exact h (by rw [he])

theorem slug_final_ok (cleaned : List Char) (ts : Nat)
    (hclean : ∀ c ∈ cleaned, slugCharOk c = true) :
    (if cleaned.isEmpty then (⟨"product-".data ++ decRepr ts⟩ : String)
       else ⟨cleaned⟩) ≠ "" ∧
    (if cleaned.isEmpty then (⟨"product-".data ++ decRepr ts⟩ : String)
       else ⟨cleaned⟩).data.all slugCharOk = true := by
  by_cases h : cleaned.isEmpty = true
  · rw [if_pos h]
    constructor
    · apply string_ne_empty_of_data_ne_nil
      show "product-".data ++ decRepr ts ≠ []
      simp
    · show ("product-".data ++ decRepr ts).all slugCharOk = true
      rw [List.all_append]
      simp only [Bool.and_eq_true]
      exact ⟨by decide, decRepr_ok ts⟩
  · rw [if_neg h]
    have hne : cleaned ≠ [] := by simpa [List.isEmpty_iff] using h
    constructor
    · exact string_ne_empty_of_data_ne_nil hne
    · show cleaned.all slugCharOk = true
      rw [List.all_eq_true]
      exact hclean

theorem productSlug_sanitized (sku nm : String) (ts : Nat) :
    productSlug sku nm ts ≠ "" ∧ (productSlug sku nm ts).data.all slugCharOk = true := by
  unfold productSlug
  exact slug_final_ok _ ts fun c hc => sanitizeSlug_ok hc

/-- Claim C10: for every row, the `slug` field of the assembled product
payload is a non-empty string all of whose characters are in `[a-z0-9-]`
(derived from the lowercased SKU or the transliterated name, then sanitised,
with a non-empty `product-<timestamp>` fallback). -/
theorem claim_C10_slug_sanitized (env : Env) (r : Row) :
    (create_product_data env r).slug ≠ "" ∧
    ((create_product_data env r).slug).data.all slugCharOk = true :=
  productSlug_sanitized (pyStrip r.sku) (env.translitName r) env.timeNow

/-! ## Taxonomy resolver theorems -/

/-- Claim C7: if the brand term creation fails with a `term_exists` error
carrying embedded existing ids, the resolver returns the first embedded id
instead of failing, caches it, and a subsequent resolve for the same name
returns it from the cache without any further remote call (state unchanged). -/
theorem claim_C7_embedded_id_recovery (env : TermEnv) (st : TaxState) (name : String)
    (ts : List Term) (a : Nat) (rest : List Nat)
    (hmiss : st.brandCache.lookup (pyLower (pyStrip name)) = none)
    (hsearch : env.brandSearch name = .ok ts)
    (hnf : findExactTerm name ts = none)
    (hcreate : env.brandCreate name = .failed 400 true (a :: rest)) :
    (get_or_create_brand_term_id env st name).2 = some a ∧
    (get_or_create_brand_term_id env (get_or_create_brand_term_id env st name).1 name)
      = ((get_or_create_brand_term_id env st name).1, some a) := by
  have h1 : get_or_create_brand_term_id env st name =
      ({ st with brandCache := (pyLower (pyStrip name), a) :: st.brandCache,
                 brandSearchCalls := st.brandSearchCalls + 1,
                 brandCreateCalls := st.brandCreateCalls + 1 }, some a) := by
    simp [get_or_create_brand_term_id, hmiss, hsearch, hnf, hcreate]
  rw [h1]
  refine ⟨rfl, ?_⟩
  simp [get_or_create_brand_term_id, List.lookup]

/-- Scenario-D instance of claim C7: `additional_data = [42]` yields 42, and
the second resolve returns 42 with no further remote calls. -/
theorem claim_C7_witness :
    (get_or_create_brand_term_id scenarioDEnv {} "Acme").2 = some 42 ∧
    (get_or_create_brand_term_id scenarioDEnv
        (get_or_create_brand_term_id scenarioDEnv {} "Acme").1 "Acme")
      = ((get_or_create_brand_term_id scenarioDEnv {} "Acme").1, some 42) :=
  claim_C7_embedded_id_recovery scenarioDEnv {} "Acme" [] 42 [] rfl rfl rfl rfl

theorem category_twice (env : TermEnv) (st : TaxState) (name : String) :
    (get_or_create_category env (get_or_create_category env st name).1 name).2
      = (get_or_create_category env st name).2 ∧
    ((get_or_create_category env st name).2.isSome = true →
      (get_or_create_category env
          (get_or_create_category env st name).1 name).1.categoryCreateCalls
        = (get_or_create_category env st name).1.categoryCreateCalls ∧
      (get_or_create_category env st name).1.categoryCreateCalls
        ≤ st.categoryCreateCalls + 1) := by
  by_cases hn : name = ""
  · simp [get_or_create_category, hn]
  · cases hlk : st.categoryCache.lookup (pyLower (pyStrip name)) with
    | some id =>
        have h1 : get_or_create_category env st name = (st, some id) := by
          simp [get_or_create_category, hn, hlk]
        rw [h1]
        simp [get_or_create_category, hn, hlk]
    | none =>
        cases hs : env.categorySearch name with
        | excep =>
            have h1 : get_or_create_category env st name =
                ({ st with categorySearchCalls := st.categorySearchCalls + 1 }, none) := by
              simp [get_or_create_category, hn, hlk, hs]
            rw [h1]
            simp [get_or_create_category, hn, hlk, hs]
        | bad =>
            cases hc : env.categoryCreate name with
            | created id =>
                have h1 : get_or_create_category env st name =
                    ({ st with categorySearchCalls := st.categorySearchCalls + 1,
                               categoryCreateCalls := st.categoryCreateCalls + 1,
                               categoryCache :=
                                 (pyLower (pyStrip name), id) :: st.categoryCache },
                     some id) := by
                  simp [get_or_create_category, category_create_step, hn, hlk, hs, hc]
                rw [h1]
                simp [get_or_create_category, List.lookup, hn]
            | failed =>
                have h1 : get_or_create_category env st name =
                    ({ st with categorySearchCalls := st.categorySearchCalls + 1,
                               categoryCreateCalls := st.categoryCreateCalls + 1 },
                     none) := by
                  simp [get_or_create_category, category_create_step, hn, hlk, hs, hc]
                rw [h1]
                simp [get_or_create_category, category_create_step, hn, hlk, hs, hc]
            | excep =>
                have h1 : get_or_create_category env st name =
                    ({ st with categorySearchCalls := st.categorySearchCalls + 1,
                               categoryCreateCalls := st.categoryCreateCalls + 1 },
                     none) := by
                  simp [get_or_create_category, category_create_step, hn, hlk, hs, hc]
                rw [h1]
                simp [get_or_create_category, category_create_step, hn, hlk, hs, hc]
        | ok terms =>
            cases hf : findExactTerm name terms with
            | some id =>
                have h1 : get_or_create_category env st name =
                    ({ st with categorySearchCalls := st.categorySearchCalls + 1,
                               categoryCache :=
                                 (pyLower (pyStrip name), id) :: st.categoryCache },
                     some id) := by
                  simp [get_or_create_category, hn, hlk, hs, hf]
                rw [h1]
                simp [get_or_create_category, List.lookup, hn]
            | none =>
                cases hc : env.categoryCreate name with
                | created id =>
                    have h1 : get_or_create_category env st name =
                        ({ st with categorySearchCalls := st.categorySearchCalls + 1,
                                   categoryCreateCalls := st.categoryCreateCalls + 1,
                                   categoryCache :=
                                     (pyLower (pyStrip name), id) :: st.categoryCache },
                         some id) := by
                      simp [get_or_create_category, category_create_step, hn, hlk, hs, hf,
                        hc]
                    rw [h1]
                    simp [get_or_create_category, List.lookup, hn]
                | failed =>
                    have h1 : get_or_create_category env st name =
                        ({ st with categorySearchCalls := st.categorySearchCalls + 1,
                                   categoryCreateCalls := st.categoryCreateCalls + 1 },
                         none) := by
                      simp [get_or_create_category, category_create_step, hn, hlk, hs, hf,
                        hc]
                    rw [h1]
                    simp [get_or_create_category, category_create_step, hn, hlk, hs, hf,
                      hc]
                | excep =>
                    have h1 : get_or_create_category env st name =
                        ({ st with categorySearchCalls := st.categorySearchCalls + 1,
                                   categoryCreateCalls := st.categoryCreateCalls + 1 },
                         none) := by
                      simp [get_or_create_category, category_create_step, hn, hlk, hs, hf,
                        hc]
                    rw [h1]
                    simp [get_or_create_category, category_create_step, hn, hlk, hs, hf,
                      hc]

theorem brand_twice (env : TermEnv) (st : TaxState) (name : String) :
    (get_or_create_brand_term_id env (get_or_create_brand_term_id env st name).1 name).2
      = (get_or_create_brand_term_id env st name).2 ∧
    ((get_or_create_brand_term_id env st name).2.isSome = true →
      (get_or_create_brand_term_id env
          (get_or_create_brand_term_id env st name).1 name).1.brandCreateCalls
        = (get_or_create_brand_term_id env st name).1.brandCreateCalls ∧
      (get_or_create_brand_term_id env st name).1.brandCreateCalls
        ≤ st.brandCreateCalls + 1) := by
  cases hlk : st.brandCache.lookup (pyLower (pyStrip name)) with
  | some id =>
      have h1 : get_or_create_brand_term_id env st name = (st, some id) := by
        simp [get_or_create_brand_term_id, hlk]
      rw [h1]
      simp [get_or_create_brand_term_id, hlk]
  | none =>
      cases hs : env.brandSearch name with
      | excep =>
          have h1 : get_or_create_brand_term_id env st name =
              ({ st with brandSearchCalls := st.brandSearchCalls + 1 }, none) := by
            simp [get_or_create_brand_term_id, hlk, hs]
          rw [h1]
          simp [get_or_create_brand_term_id, hlk, hs]
      | bad =>
          have h1 : get_or_create_brand_term_id env st name =
              ({ st with brandSearchCalls := st.brandSearchCalls + 1 }, none) := by
            simp [get_or_create_brand_term_id, hlk, hs]
          rw [h1]
          simp [get_or_create_brand_term_id, hlk, hs]
      | ok terms =>
          cases hf : findExactTerm name terms with
          | some id =>
              have h1 : get_or_create_brand_term_id env st name =
                  ({ st with brandSearchCalls := st.brandSearchCalls + 1,
                             brandCache :=
                               (pyLower (pyStrip name), id) :: st.brandCache },
                   some id) := by
                simp [get_or_create_brand_term_id, hlk, hs, hf]
              rw [h1]
              simp [get_or_create_brand_term_id, List.lookup]
          | none =>
              cases hc : env.brandCreate name with
              | created id =>
                  have h1 : get_or_create_brand_term_id env st name =
                      ({ st with brandSearchCalls := st.brandSearchCalls + 1,
                                 brandCreateCalls := st.brandCreateCalls + 1,
                                 brandCache :=
                                   (pyLower (pyStrip name), id) :: st.brandCache },
                       some id) := by
                    simp [get_or_create_brand_term_id, hlk, hs, hf, hc]
                  rw [h1]
                  simp [get_or_create_brand_term_id, List.lookup]
              | excep =>
                  have h1 : get_or_create_brand_term_id env st name =
                      ({ st with brandSearchCalls := st.brandSearchCalls + 1,
                                 brandCreateCalls := st.brandCreateCalls + 1 },
                       none) := by
                    simp [get_or_create_brand_term_id, hlk, hs, hf, hc]
                  rw [h1]
                  simp [get_or_create_brand_term_id, hlk, hs, hf, hc]
              | failed status txt addl =>
                  by_cases hrec : (status == 400 && txt) = true
                  · cases addl with
                    | nil =>
                        have h1 : get_or_create_brand_term_id env st name =
                            ({ st with brandSearchCalls := st.brandSearchCalls + 1,
                                       brandCreateCalls := st.brandCreateCalls + 1 },
                             none) := by
                          simp [get_or_create_brand_term_id, hlk, hs, hf, hc, hrec]
                        rw [h1]
                        simp [get_or_create_brand_term_id, hlk, hs, hf, hc, hrec]
                    | cons a rest =>
                        have h1 : get_or_create_brand_term_id env st name =
                            ({ st with brandSearchCalls := st.brandSearchCalls + 1,
                                       brandCreateCalls := st.brandCreateCalls + 1,
                                       brandCache :=
                                         (pyLower (pyStrip name), a) :: st.brandCache },
                             some a) := by
                          simp [get_or_create_brand_term_id, hlk, hs, hf, hc, hrec]
                        rw [h1]
                        simp [get_or_create_brand_term_id, List.lookup]
                  · have h1 : get_or_create_brand_term_id env st name =
                        ({ st with brandSearchCalls := st.brandSearchCalls + 1,
                                   brandCreateCalls := st.brandCreateCalls + 1 },
                         none) := by
                      simp [get_or_create_brand_term_id, hlk, hs, hf, hc, hrec]
                    rw [h1]
                    simp [get_or_create_brand_term_id, hlk, hs, hf, hc, hrec]

/-- Claim C4 fails as stated: with a term store whose creation call fails
(search finds nothing, creation returns a plain error), resolving the same
category name twice issues the term-creation call twice — nothing was cached
after the first failure, so the claimed "at most once" bound is violated. -/
theorem claim_C4_counterexample :
    ¬ ((get_or_create_category failingTermEnv
          (get_or_create_category failingTermEnv {} "Tools").1 "Tools").1.categoryCreateCalls
        ≤ 1) := by
  decide

/-- Claim C4 (amended): for both taxonomy kinds, two lock-serialised resolve
calls for the same name yield the same result, and when the first call
succeeds the creation call is issued at most once in total (the second call
issues none).  When the first call fails (returns `None`), nothing is cached
and a later call may re-issue the creation call. -/
theorem claim_C4_amended (env : TermEnv) (st : TaxState) (name : String) :
    ((get_or_create_category env (get_or_create_category env st name).1 name).2
        = (get_or_create_category env st name).2 ∧
      ((get_or_create_category env st name).2.isSome = true →
        (get_or_create_category env
            (get_or_create_category env st name).1 name).1.categoryCreateCalls
          = (get_or_create_category env st name).1.categoryCreateCalls ∧
        (get_or_create_category env st name).1.categoryCreateCalls
          ≤ st.categoryCreateCalls + 1)) ∧
    ((get_or_create_brand_term_id env
        (get_or_create_brand_term_id env st name).1 name).2
        = (get_or_create_brand_term_id env st name).2 ∧
      ((get_or_create_brand_term_id env st name).2.isSome = true →
        (get_or_create_brand_term_id env
            (get_or_create_brand_term_id env st name).1 name).1.brandCreateCalls
          = (get_or_create_brand_term_id env st name).1.brandCreateCalls ∧
        (get_or_create_brand_term_id env st name).1.brandCreateCalls
          ≤ st.brandCreateCalls + 1)) :=
  ⟨category_twice env st name, brand_twice env st name⟩

/-- Instance of the amended claim C4 at a term store that already holds the
terms: both resolves agree and no creation call is ever issued. -/
theorem claim_C4_amended_witness :
    (get_or_create_category hitTermEnv
        (get_or_create_category hitTermEnv {} "Tools").1 "Tools").2
      = (get_or_create_category hitTermEnv {} "Tools").2 ∧
    (get_or_create_category hitTermEnv
        (get_or_create_category hitTermEnv {} "Tools").1 "Tools").1.categoryCreateCalls
      = (get_or_create_category hitTermEnv {} "Tools").1.categoryCreateCalls ∧
    (get_or_create_category hitTermEnv {} "Tools").1.categoryCreateCalls ≤ 1 := by
  have h := claim_C4_amended hitTermEnv ({} : TaxState) "Tools"
  exact ⟨h.1.1, (h.1.2 (by decide)).1, (h.1.2 (by decide)).2⟩

/-! ## Batch accounting lemmas -/

theorem chunksOf25_singleton (x : α) : chunksOf 25 [x] = [[x]] := rfl

theorem skip_filter_sum (cache : List String) (rows : List Row) :
    (skip_filter cache rows).errors + (skip_filter cache rows).skipped
      + (skip_filter cache rows).keep.length = rows.length := by
  induction rows with
  | nil => rfl
  | cons r rest ih =>
      simp only [skip_filter]
      split
      · simp only [List.length_cons]
        omega
      · split
        · simp only [List.length_cons]
          omega
        · simp only [List.length_cons]
          omega

theorem prep_split (ps : List PrepResult) :
    ps.countP isPrepError + (ps.filterMap prepSuccessData).length = ps.length := by
  induction ps with
  | nil => rfl
  | cons p rest ih =>
      cases p <;>
        simp only [List.countP_cons, List.filterMap_cons, isPrepError, prepSuccessData,
          List.length_cons] <;>
        simp <;> omega

theorem create_collect_le (env : Env) (hwf : CreateRespWF env) :
    ∀ cs : List (List ProductData), (create_collect env cs).length ≤ cs.flatten.length := by
  intro cs
  induction cs with
  | nil => simp [create_collect]
  | cons c rest ih =>
      rw [create_collect]
      cases hr : env.createResp c with
      | ok items =>
          have hl := hwf c items hr
          have hf : (items.filterMap createdWithId).length ≤ items.length :=
            List.length_filterMap_le _ _
          simp only [List.length_append, List.flatten_cons]
          omega
      | httpFail =>
          simp only [List.length_append, List.flatten_cons, List.length_nil]
          omega

theorem batch_create_le (env : Env) (hwf : CreateRespWF env) (l : List ProductData) :
    (batch_create_products env l).length ≤ l.length := by
  have h := create_collect_le env hwf (chunksOf 25 l)
  rwa [chunksOf_flatten 25 (by decide) l] at h

theorem process_batch_skip_sum (env : Env) (hwf : CreateRespWF env)
    (cache : List String) (rows : List Row) :
    (process_batch_skip env cache rows).new + (process_batch_skip env cache rows).updated
      + (process_batch_skip env cache rows).skipped
      + (process_batch_skip env cache rows).errors = rows.length ∧
    (process_batch_skip env cache rows).ghosts = 0 := by
  simp only [process_batch_skip]
  refine ⟨?_, trivial⟩
  have h1 := skip_filter_sum cache rows
  have h2 := prep_split ((skip_filter cache rows).keep.map (prepare_product_data_task env))
  rw [List.length_map] at h2
  have h3 := batch_create_le env hwf
    (((skip_filter cache rows).keep.map (prepare_product_data_task env)).filterMap
      prepSuccessData)
  omega

theorem classify_list_sum (l : List (ProductData × ItemResult)) :
    (classify_list l).newly.length + (classify_list l).toUpdate.length
      + (classify_list l).apiErrors = l.length := by
  induction l with
  | nil => rfl
  | cons pr rest ih =>
      simp only [classify_list]
      cases pr.2 with
      | created info =>
          by_cases hid : (info.id != 0) = true <;>
            simp only [hid, if_true, if_false, Bool.false_eq_true, List.length_cons] <;>
            omega
      | errorRes code msg =>
          by_cases hd : isDuplicateError code msg = true <;>
            simp only [hd, if_true, if_false, Bool.false_eq_true, List.length_cons] <;>
            omega
      | other =>
          simp only [List.length_cons]
          omega

theorem classify_chunk_sum (env : Env) (hwf : CreateRespWF env) (c : List ProductData) :
    (classify_chunk env c).newly.length + (classify_chunk env c).toUpdate.length
      + (classify_chunk env c).apiErrors = c.length := by
  unfold classify_chunk
  cases hr : env.createResp c with
  | ok items =>
      have hl := hwf c items hr
      have hz := classify_list_sum (c.zip items)
      rw [List.length_zip, hl, Nat.min_self] at hz
      simpa using hz
  | httpFail => simp

theorem update_mode_scan_sum (env : Env) (hwf : CreateRespWF env) :
    ∀ cs : List (List ProductData),
      (update_mode_scan env cs).newly.length + (update_mode_scan env cs).toUpdate.length
        + (update_mode_scan env cs).apiErrors = cs.flatten.length := by
  intro cs
  induction cs with
  | nil => rfl
  | cons c rest ih =>
      have hc := classify_chunk_sum env hwf c
      simp only [update_mode_scan, combine_scan, List.length_append, List.flatten_cons]
      omega

theorem products_for_batch_update_cons_found (p : ProductData) (info : ProductInfo)
    (rest : List (ProductData × SearchOutcome)) :
    products_for_batch_update ((p, SearchOutcome.found info) :: rest)
      = { p with id := some info.id } :: products_for_batch_update rest := rfl

theorem products_for_batch_update_cons_nf (p : ProductData)
    (rest : List (ProductData × SearchOutcome)) :
    products_for_batch_update ((p, SearchOutcome.notFound) :: rest)
      = products_for_batch_update rest := rfl

theorem products_for_batch_update_cons_exc (p : ProductData)
    (rest : List (ProductData × SearchOutcome)) :
    products_for_batch_update ((p, SearchOutcome.excep) :: rest)
      = products_for_batch_update rest := rfl

theorem lookup_fail_count_cons_found (p : ProductData) (info : ProductInfo)
    (rest : List (ProductData × SearchOutcome)) :
    lookup_fail_count ((p, SearchOutcome.found info) :: rest) = lookup_fail_count rest := rfl

theorem lookup_fail_count_cons_nf (p : ProductData)
    (rest : List (ProductData × SearchOutcome)) :
    lookup_fail_count ((p, SearchOutcome.notFound) :: rest)
      = lookup_fail_count rest + 1 := rfl

theorem lookup_fail_count_cons_exc (p : ProductData)
    (rest : List (ProductData × SearchOutcome)) :
    lookup_fail_count ((p, SearchOutcome.excep) :: rest)
      = lookup_fail_count rest + 1 := rfl

theorem lookup_split (lk : List (ProductData × SearchOutcome)) :
    (products_for_batch_update lk).length + lookup_fail_count lk = lk.length := by
  induction lk with
  | nil => rfl
  | cons pr rest ih =>
      obtain ⟨p, o⟩ := pr
      cases o <;>
        simp only [products_for_batch_update_cons_found, products_for_batch_update_cons_nf,
          products_for_batch_update_cons_exc, lookup_fail_count_cons_found,
          lookup_fail_count_cons_nf, lookup_fail_count_cons_exc, List.length_cons] <;>
        omega

theorem duplicate_lookup_length (env : Env) (tu : List ProductData) :
    (duplicate_lookup env tu).length = tu.length := by
  simp [duplicate_lookup]

theorem update_collect_le (env : Env) (hwf : UpdateRespWF env) :
    ∀ cs : List (List ProductData), (update_collect env cs).1.length ≤ cs.flatten.length := by
  intro cs
  induction cs with
  | nil => simp [update_collect]
  | cons c rest ih =>
      rw [update_collect]
      cases hr : env.updateResp (c.map popSku) with
      | ok items =>
          have hl := hwf _ items hr
          rw [List.length_map] at hl
          have hf : (items.filterMap updOkInfo).length ≤ items.length :=
            List.length_filterMap_le _ _
          simp only [List.length_append, List.flatten_cons]
          omega
      | httpFail =>
          simp only [List.length_append, List.flatten_cons, List.length_nil]
          omega

theorem batch_update_le (env : Env) (hwf : UpdateRespWF env) (l : List ProductData) :
    (batch_update_products env l).1.length ≤ l.length := by
  have h := update_collect_le env hwf (chunksOf 25 l)
  rwa [chunksOf_flatten 25 (by decide) l] at h

theorem prepared_split (env : Env) (rows : List Row) :
    initial_prep_errors env rows + (prepared_products env rows).length = rows.length := by
  have h := prep_split (rows.map (prepare_product_data_task env))
  rw [List.length_map] at h
  exact h

theorem process_batch_update_sum (env : Env) (hwfc : CreateRespWF env)
    (hwfu : UpdateRespWF env) (rows : List Row) :
    (process_batch_update env rows).new + (process_batch_update env rows).updated
      + (process_batch_update env rows).skipped
      + (process_batch_update env rows).errors
      = rows.length + (process_batch_update env rows).ghosts := by
  have hps := prepared_split env rows
  simp only [process_batch_update]
  split
  · rename_i hemp
    have : (prepared_products env rows).length = 0 := by
      simp [List.isEmpty_iff.mp hemp]
    simp only []
    omega
  · rename_i hemp
    have hscan := update_mode_scan_sum env hwfc (chunksOf 25 (prepared_products env rows))
    rw [chunksOf_flatten 25 (by decide)] at hscan
    have hlk := lookup_split (duplicate_lookup env
      (update_mode_scan env (chunksOf 25 (prepared_products env rows))).toUpdate)
    rw [duplicate_lookup_length] at hlk
    have hle := batch_update_le env hwfu (products_for_batch_update
      (duplicate_lookup env
        (update_mode_scan env (chunksOf 25 (prepared_products env rows))).toUpdate))
    simp only []
    omega

/-! ## Run-level accounting and claim C1 -/

theorem sumBy_nil (f : BatchOut → Nat) : sumBy f [] = 0 := rfl

theorem sumBy_cons (f : BatchOut → Nat) (b : BatchOut) (bs : List BatchOut) :
    sumBy f (b :: bs) = f b + sumBy f bs := by
  simp [sumBy]

theorem run_batches_sum (env : Env) (cache : List String) (skipEx : Bool)
    (stopAt : Nat → Bool) (hwfc : CreateRespWF env) (hwfu : UpdateRespWF env)
    (hstop : ∀ i, stopAt i = false) :
    ∀ (i : Nat) (bss : List (List Row)),
      sumBy (fun b => b.new) (run_batches env cache skipEx stopAt i bss)
        + sumBy (fun b => b.updated) (run_batches env cache skipEx stopAt i bss)
        + sumBy (fun b => b.skipped) (run_batches env cache skipEx stopAt i bss)
        + sumBy (fun b => b.errors) (run_batches env cache skipEx stopAt i bss)
      = bss.flatten.length
        + sumBy (fun b => b.ghosts) (run_batches env cache skipEx stopAt i bss) := by
  intro i bss
  induction bss generalizing i with
  | nil => simp [run_batches, sumBy_nil]
  | cons b rest ih =>
      simp only [run_batches, hstop i, Bool.false_eq_true, if_false, sumBy_cons,
        List.flatten_cons, List.length_append]
      have hb :
          (process_batch env cache skipEx b).new + (process_batch env cache skipEx b).updated
            + (process_batch env cache skipEx b).skipped
            + (process_batch env cache skipEx b).errors
          = b.length + (process_batch env cache skipEx b).ghosts := by
        cases skipEx with
        | true =>
            have h := process_batch_skip_sum env hwfc cache b
            simp only [process_batch, if_true]
            omega
        | false =>
            have h := process_batch_update_sum env hwfc hwfu b
            simp only [process_batch, Bool.false_eq_true, if_false]
            omega
      have hr := ih (i + 1)
      omega

/-- Claim C1 fails as stated: with one row in update-existing mode whose
create response reports a duplicate SKU but whose SKU search finds nothing (a
ghost SKU), the run returns `new = updated = skipped = 0`, `errors = 2`,
`total = 1`, so `new + updated + skipped + errors ≠ total` — the ghost row is
counted twice (once at detection, once in the final reconciliation). -/
theorem claim_C1_counterexample :
    ¬ ((batch_process_products ghostEnv {} [rowB1] false 100 (fun _ => false)).result.new.getD 0
        + (batch_process_products ghostEnv {} [rowB1] false 100
            (fun _ => false)).result.updated.getD 0
        + (batch_process_products ghostEnv {} [rowB1] false 100
            (fun _ => false)).result.skipped.getD 0
        + (batch_process_products ghostEnv {} [rowB1] false 100 (fun _ => false)).result.errors
        = (batch_process_products ghostEnv {} [rowB1] false 100
            (fun _ => false)).result.total) := by
  decide

/-- Claim C1 (amended): for every run that is not stopped, whose cache build
does not fatally fail, and whose bulk endpoints honour the parallel-array
contract, `new + updated + skipped + errors = total + G`, where `G` counts
the update-mode rows that were classified as duplicates but whose remote-ID
lookup failed (ghost SKUs and lookup exceptions) — each such row is counted
twice in `errors`.  In particular the spec's conservation equation holds
exactly when no such lookup failure occurs (`G = 0`). -/
theorem claim_C1_amended (env : Env) (st : UploaderState) (rows : List Row)
    (skipEx : Bool) (bs : Nat) (stopAt : Nat → Bool)
    (hwfc : CreateRespWF env) (hwfu : UpdateRespWF env)
    (hstop : ∀ i, stopAt i = false) (hbs : bs ≠ 0)
    (hcache : skipEx = true → st.cacheLoaded = false →
      (load_all_existing_products env.pages (brand_filters rows)).isSome = true) :
    (batch_process_products env st rows skipEx bs stopAt).result.new.getD 0
      + (batch_process_products env st rows skipEx bs stopAt).result.updated.getD 0
      + (batch_process_products env st rows skipEx bs stopAt).result.skipped.getD 0
      + (batch_process_products env st rows skipEx bs stopAt).result.errors
    = (batch_process_products env st rows skipEx bs stopAt).result.total
      + sumBy (fun b => b.ghosts)
          (batch_process_products env st rows skipEx bs stopAt).batches := by
  have hsum : ∀ cache : List String,
      sumBy (fun b => b.new) (run_batches env cache skipEx stopAt 0 (chunksOf bs rows))
        + sumBy (fun b => b.updated)
            (run_batches env cache skipEx stopAt 0 (chunksOf bs rows))
        + sumBy (fun b => b.skipped)
            (run_batches env cache skipEx stopAt 0 (chunksOf bs rows))
        + sumBy (fun b => b.errors)
            (run_batches env cache skipEx stopAt 0 (chunksOf bs rows))
      = rows.length
        + sumBy (fun b => b.ghosts)
            (run_batches env cache skipEx stopAt 0 (chunksOf bs rows)) := by
    intro cache
    have h := run_batches_sum env cache skipEx stopAt hwfc hwfu hstop 0 (chunksOf bs rows)
    rwa [chunksOf_flatten bs hbs rows] at h
  cases skipEx with
  | false =>
      simp only [batch_process_products, Bool.false_eq_true, if_false]
      simpa using hsum []
  | true =>
      cases hld : st.cacheLoaded with
      | true =>
          simp only [batch_process_products, hld, if_true, Bool.not_true, Bool.and_false]
          simpa using hsum st.existingCache
      | false =>
          have hsome := hcache rfl hld
          cases hload : load_all_existing_products env.pages (brand_filters rows) with
          | none => rw [hload] at hsome; simp at hsome
          | some entries =>
              simp only [batch_process_products, hld, hload, if_true, Bool.not_false,
                Bool.and_true]
              simpa using hsum entries

/-- Instance of the amended claim C1 on a completed one-row update run with a
transport-level create failure: `0 + 0 + 0 + 1 = 1 + 0`. -/
theorem claim_C1_amended_witness :
    CreateRespWF baseEnv ∧ UpdateRespWF baseEnv ∧
    (batch_process_products baseEnv {} [rowA1] false 100 (fun _ => false)).result.new.getD 0
      + (batch_process_products baseEnv {} [rowA1] false 100
          (fun _ => false)).result.updated.getD 0
      + (batch_process_products baseEnv {} [rowA1] false 100
          (fun _ => false)).result.skipped.getD 0
      + (batch_process_products baseEnv {} [rowA1] false 100 (fun _ => false)).result.errors
    = (batch_process_products baseEnv {} [rowA1] false 100 (fun _ => false)).result.total
      + sumBy (fun b => b.ghosts)
          (batch_process_products baseEnv {} [rowA1] false 100 (fun _ => false)).batches :=
  by
  refine ⟨?_, ?_, ?_⟩
  · intro c items h
    exact nomatch h
  · intro c items h
    exact nomatch h
  · exact claim_C1_amended baseEnv {} [rowA1] false 100 (fun _ => false)
      (fun _ _ h => nomatch h) (fun _ _ h => nomatch h) (fun _ => rfl) (by decide)
      (fun h _ => nomatch h)

/-! ## Claim C3: update-mode reclassification (Scenario B) -/

/-- Claim C3: a batch row whose bulk-create response entry is a recognised
duplicate-SKU error is moved to the update path; when the single-SKU search
finds a product, the row is submitted to the bulk-update call with the found
id attached and the `sku` key removed from its payload, and it is counted as
updated, not new. -/
theorem claim_C3_update_reclassification (env : Env) (r : Row) (code msg : String)
    (info updInfo : ProductInfo)
    (hsku : ¬ pyStrip r.sku = "")
    (hprep : env.prepFails r = false)
    (hcreate : env.createResp [create_product_data env r] = .ok [.errorRes code msg])
    (hdup : isDuplicateError code msg = true)
    (hsearch : env.searchBySku (pyStrip r.sku) = .found info)
    (hupd : env.updateResp
        [{ create_product_data env r with sku := none, id := some info.id }]
      = .ok [.updOk updInfo]) :
    (process_batch_update env [r]).new = 0 ∧
    (process_batch_update env [r]).updated = 1 ∧
    (process_batch_update env [r]).updateChunks
      = [[{ create_product_data env r with sku := none, id := some info.id }]] := by
  have hptask : prepare_product_data_task env r = .success (create_product_data env r) := by
    simp [prepare_product_data_task, hsku, hprep]
  have hprod : prepared_products env [r] = [create_product_data env r] := by
    simp [prepared_products, hptask, prepSuccessData]
  have hscan : update_mode_scan env (chunksOf 25 [create_product_data env r])
      = { newly := [], toUpdate := [create_product_data env r], apiErrors := 0 } := by
    rw [chunksOf25_singleton]
    simp [update_mode_scan, classify_chunk, hcreate, classify_list, hdup, combine_scan]
  have hlk : duplicate_lookup env [create_product_data env r]
      = [(create_product_data env r, SearchOutcome.found info)] := by
    have hsk : (create_product_data env r).sku = some (pyStrip r.sku) := rfl
    simp [duplicate_lookup, hsk, hsearch]
  have hbu : batch_update_products env
        [{ create_product_data env r with id := some info.id }]
      = ([updInfo], [[{ create_product_data env r with sku := none, id := some info.id }]]) := by
    rw [batch_update_products, chunksOf25_singleton]
    have hpop : popSku { create_product_data env r with id := some info.id }
        = { create_product_data env r with sku := none, id := some info.id } := rfl
    simp [update_collect, hpop, hupd, updOkInfo]
  simp only [process_batch_update, hprod, List.isEmpty_cons, Bool.false_eq_true, if_false,
    hscan, hlk]
  simp only [products_for_batch_update_cons_found]
  simp only [products_for_batch_update]
  simp [hbu, lookup_fail_count, isFoundOutcome]

/-- Scenario-B instance of claim C3: SKU `B1`, duplicate reported, search
finds id 77 — the run counts `updated = 1, new = 0` and the bulk-update call
carries `{id := 77}` with the `sku` key removed. -/
theorem claim_C3_witness :
    isDuplicateError "woocommerce_rest_product_sku_already_exists" "" = true ∧
    (process_batch_update scenarioBEnv [rowB1]).new = 0 ∧
    (process_batch_update scenarioBEnv [rowB1]).updated = 1 ∧
    (process_batch_update scenarioBEnv [rowB1]).updateChunks
      = [[{ create_product_data scenarioBEnv rowB1 with sku := none, id := some 77 }]] := by
  have h := claim_C3_update_reclassification scenarioBEnv rowB1
    "woocommerce_rest_product_sku_already_exists" ""
    { id := 77, sku := "B1" } { id := 77, sku := "B1" }
    (by decide) rfl rfl (by decide) rfl rfl
  exact ⟨by decide, h.1, h.2.1, h.2.2⟩

/-! ## Claim C8: missing-image tolerance (Scenario C) -/

/-- Claim C8: a row whose image resolution yields `None` (no local image and
no placeholder) is still created normally, no image-assignment call is made
for it, and no error is counted. -/
theorem claim_C8_missing_image (env : Env) (r : Row) (info : ProductInfo)
    (hsku : ¬ pyStrip r.sku = "")
    (hprep : env.prepFails r = false)
    (himg : env.imageUrl (pyStrip r.sku) = none)
    (hcreate : env.createResp [create_product_data env r] = .ok [.created info])
    (hid : (info.id != 0) = true) :
    (process_batch_skip env [] [r]).new = 1 ∧
    (process_batch_skip env [] [r]).skipped = 0 ∧
    (process_batch_skip env [] [r]).errors = 0 ∧
    (process_batch_skip env [] [r]).imageAssigns = [] ∧
    (process_batch_skip env [] [r]).createChunks = [[create_product_data env r]] := by
  have himgs : upload_image_results env [r] = [] := by
    simp [upload_image_results, uniqueSkus, hsku, himg]
  have hfilter : skip_filter [] [r] = { keep := [r], skipped := 0, errors := 0 } := by
    simp [skip_filter, hsku]
  have hptask : prepare_product_data_task env r = .success (create_product_data env r) := by
    simp [prepare_product_data_task, hsku, hprep]
  have hbc : batch_create_products env [create_product_data env r] = [info] := by
    rw [batch_create_products, chunksOf25_singleton]
    simp [create_collect, hcreate, createdWithId, hid]
  simp only [process_batch_skip, himgs, hfilter]
  simp [hptask, prepSuccessData, isPrepError, hbc, set_external_images, List.lookup,
    chunksOf25_singleton]

/-- Scenario-C instance of claim C8: SKU `A1`, publisher returns `None`,
creation succeeds with id 101 — `new = 1`, no errors, no image-assignment
calls. -/
theorem claim_C8_witness :
    scenarioCEnv.imageUrl "A1" = none ∧
    (process_batch_skip scenarioCEnv [] [rowA1]).new = 1 ∧
    (process_batch_skip scenarioCEnv [] [rowA1]).errors = 0 ∧
    (process_batch_skip scenarioCEnv [] [rowA1]).imageAssigns = [] := by
  have h := claim_C8_missing_image scenarioCEnv rowA1 { id := 101, sku := "A1" }
    (by decide) rfl rfl rfl (by decide)
  exact ⟨rfl, h.1, h.2.2.1, h.2.2.2.1⟩

/-! ## Claim C6: ghost-SKU handling -/

theorem ghost_logs_cons_found (p : ProductData) (info : ProductInfo)
    (rest : List (ProductData × SearchOutcome)) :
    ghost_logs ((p, SearchOutcome.found info) :: rest) = ghost_logs rest := rfl

theorem ghost_logs_cons_nf (p : ProductData)
    (rest : List (ProductData × SearchOutcome)) :
    ghost_logs ((p, SearchOutcome.notFound) :: rest)
      = (p.sku.getD "") :: ghost_logs rest := rfl

theorem ghost_logs_cons_exc (p : ProductData)
    (rest : List (ProductData × SearchOutcome)) :
    ghost_logs ((p, SearchOutcome.excep) :: rest) = ghost_logs rest := rfl

theorem ghost_logs_length (lk : List (ProductData × SearchOutcome)) :
    (ghost_logs lk).length = lk.countP (fun pr => isGhostOutcome pr.2) := by
  induction lk with
  | nil => rfl
  | cons pr rest ih =>
      obtain ⟨p, o⟩ := pr
      cases o with
      | found info =>
          rw [ghost_logs_cons_found, List.countP_cons]
          have hp : (if isGhostOutcome (p, SearchOutcome.found info).2 = true
              then 1 else 0) = 0 := rfl
          rw [hp, ih]
          omega
      | notFound =>
          rw [ghost_logs_cons_nf, List.countP_cons]
          have hp : (if isGhostOutcome (p, SearchOutcome.notFound).2 = true
              then 1 else 0) = 1 := rfl
          rw [hp, List.length_cons, ih]
      | excep =>
          rw [ghost_logs_cons_exc, List.countP_cons]
          have hp : (if isGhostOutcome (p, SearchOutcome.excep).2 = true
              then 1 else 0) = 0 := rfl
          rw [hp, ih]
          omega

/-- Claim C6 fails as stated: one ghost row (create reports a duplicate, the
search finds nothing) is ghost-logged exactly once but contributes 2 to the
error count, not 1 — it is counted at detection and again by the final
`len(products_to_update_data) - updated_count` reconciliation. -/
theorem claim_C6_counterexample :
    (process_batch_update ghostEnv [rowB1]).ghostLogs.length = 1 ∧
    ¬ ((process_batch_update ghostEnv [rowB1]).errors = 1) := by
  decide

/-- Claim C6 (amended): in update mode, every duplicate-classified row whose
lookup fails is counted twice in the batch error count (the error total is
`initial + createApiErrors + 2·lookupFailures + (found − updated)`), each
ghost SKU (lookup returned nothing, as opposed to raising) is logged exactly
once, and the create endpoint is only ever called on the initially assembled
payload chunks — a duplicate-classified row is never resubmitted to create. -/
theorem claim_C6_amended (env : Env) (rows : List Row) (hwfu : UpdateRespWF env) :
    (process_batch_update env rows).errors
      = initial_prep_errors env rows
        + (update_mode_scan env (chunksOf 25 (prepared_products env rows))).apiErrors
        + 2 * lookup_fail_count (duplicate_lookup env
            (update_mode_scan env (chunksOf 25 (prepared_products env rows))).toUpdate)
        + ((products_for_batch_update (duplicate_lookup env
              (update_mode_scan env
                (chunksOf 25 (prepared_products env rows))).toUpdate)).length
            - (process_batch_update env rows).updated) ∧
    (process_batch_update env rows).ghostLogs.length
      = (duplicate_lookup env
          (update_mode_scan env (chunksOf 25 (prepared_products env rows))).toUpdate).countP
          (fun pr => isGhostOutcome pr.2) ∧
    (process_batch_update env rows).createChunks
      = chunksOf 25 (prepared_products env rows) := by
  have hgl := ghost_logs_length (duplicate_lookup env
    (update_mode_scan env (chunksOf 25 (prepared_products env rows))).toUpdate)
  simp only [process_batch_update]
  split
  · rename_i hemp
    have hl : prepared_products env rows = [] := List.isEmpty_iff.mp hemp
    rw [hl] at hgl ⊢
    simp only [chunksOf_nil] at hgl ⊢
    simp [update_mode_scan, duplicate_lookup, lookup_fail_count, products_for_batch_update,
      ghost_logs] at hgl ⊢
  · have hlk := lookup_split (duplicate_lookup env
      (update_mode_scan env (chunksOf 25 (prepared_products env rows))).toUpdate)
    have hlen := duplicate_lookup_length env
      (update_mode_scan env (chunksOf 25 (prepared_products env rows))).toUpdate
    have hle := batch_update_le env hwfu (products_for_batch_update
      (duplicate_lookup env
        (update_mode_scan env (chunksOf 25 (prepared_products env rows))).toUpdate))
    refine ⟨?_, hgl, rfl⟩
    show initial_prep_errors env rows
        + ((update_mode_scan env (chunksOf 25 (prepared_products env rows))).apiErrors
          + lookup_fail_count (duplicate_lookup env
              (update_mode_scan env (chunksOf 25 (prepared_products env rows))).toUpdate))
        + ((update_mode_scan env
              (chunksOf 25 (prepared_products env rows))).toUpdate.length
            - (batch_update_products env (products_for_batch_update
                (duplicate_lookup env (update_mode_scan env
                  (chunksOf 25 (prepared_products env rows))).toUpdate))).1.length)
      = initial_prep_errors env rows
        + (update_mode_scan env (chunksOf 25 (prepared_products env rows))).apiErrors
        + 2 * lookup_fail_count (duplicate_lookup env
            (update_mode_scan env (chunksOf 25 (prepared_products env rows))).toUpdate)
        + ((products_for_batch_update (duplicate_lookup env
              (update_mode_scan env
                (chunksOf 25 (prepared_products env rows))).toUpdate)).length
            - (batch_update_products env (products_for_batch_update
                (duplicate_lookup env (update_mode_scan env
                  (chunksOf 25 (prepared_products env rows))).toUpdate))).1.length)
    omega

/-- Instance of the amended claim C6 on a one-row update run whose create
chunk fails at transport level: `errors = 0 + 1 + 0 + 0` and the trace shows
exactly the initially assembled create chunk. -/
theorem claim_C6_amended_witness :
    UpdateRespWF baseEnv ∧
    (process_batch_update baseEnv [rowB1]).errors
      = initial_prep_errors baseEnv [rowB1]
        + (update_mode_scan baseEnv (chunksOf 25 (prepared_products baseEnv [rowB1]))).apiErrors
        + 2 * lookup_fail_count (duplicate_lookup baseEnv
            (update_mode_scan baseEnv
              (chunksOf 25 (prepared_products baseEnv [rowB1]))).toUpdate)
        + ((products_for_batch_update (duplicate_lookup baseEnv
              (update_mode_scan baseEnv
                (chunksOf 25 (prepared_products baseEnv [rowB1]))).toUpdate)).length
            - (process_batch_update baseEnv [rowB1]).updated) := by
  constructor
  · intro c items h
    exact nomatch h
  · exact (claim_C6_amended baseEnv [rowB1] (fun _ _ h => nomatch h)).1

/-! ## Claim C2: skip-mode completeness requirement -/

theorem load_fail_of_page_fail (pages : CachePages) (filters : List String)
    (hpf : pages.restPages.any isPageFail = true) :
    load_all_existing_products pages filters = none := by
  unfold load_all_existing_products
  cases hfp : pages.firstPage with
  | none => rfl
  | some p1 => simp [hpf]

/-- Claim C2 fails in one detail: the fatal cache-failure result does not
carry `new = 0` — the returned dictionary omits the `new` (and `updated`,
`skipped`) keys entirely (lines 1088-1094 build it from
`success/uploaded/errors/total/message` only). -/
theorem claim_C2_counterexample :
    ¬ ((batch_process_products failingPagesEnv {} [rowA1] true 100
        (fun _ => false)).result.new = some 0) := by
  decide

/-- Claim C2 (amended): in skip mode, when the cache build fails (here:
some listing page fetch errors), the run returns a failed result (`success =
false`, `uploaded = 0`, `errors = 1`, `total` = row count) that omits the
`new`/`updated`/`skipped` counters — so it reports no creations — and no
batch is processed: no bulk-create call is ever attempted. -/
theorem claim_C2_amended (env : Env) (st : UploaderState) (rows : List Row)
    (bs : Nat) (stopAt : Nat → Bool)
    (hnl : st.cacheLoaded = false)
    (hpf : env.pages.restPages.any isPageFail = true) :
    (batch_process_products env st rows true bs stopAt).result.success = false ∧
    (batch_process_products env st rows true bs stopAt).result.uploaded = 0 ∧
    (batch_process_products env st rows true bs stopAt).result.errors = 1 ∧
    (batch_process_products env st rows true bs stopAt).result.total = rows.length ∧
    (batch_process_products env st rows true bs stopAt).result.new = none ∧
    (batch_process_products env st rows true bs stopAt).result.updated = none ∧
    (batch_process_products env st rows true bs stopAt).result.skipped = none ∧
    (batch_process_products env st rows true bs stopAt).batches = [] ∧
    attempted_creates (batch_process_products env st rows true bs stopAt) = [] := by
  have hload := load_fail_of_page_fail env.pages (brand_filters rows) hpf
  have h1 : batch_process_products env st rows true bs stopAt =
      { result := { success := false, uploaded := 0, new := none, updated := none,
                    skipped := none, errors := 1, total := rows.length }
        state := { existingCache := [], cacheLoaded := false }
        cacheBuilds := 1
        batches := [] } := by
    simp [batch_process_products, hnl, hload]
  rw [h1]
  exact ⟨rfl, rfl, rfl, rfl, rfl, rfl, rfl, rfl, rfl⟩

/-- Instance of the amended claim C2: a run whose page-2 fetch errors fails
without attempting any create. -/
theorem claim_C2_amended_witness :
    ({} : UploaderState).cacheLoaded = false ∧
    failingPagesEnv.pages.restPages.any isPageFail = true ∧
    (batch_process_products failingPagesEnv {} [rowA1] true 100
      (fun _ => false)).result.success = false ∧
    attempted_creates (batch_process_products failingPagesEnv {} [rowA1] true 100
      (fun _ => false)) = [] := by
  have h := claim_C2_amended failingPagesEnv {} [rowA1] 100 (fun _ => false) rfl (by decide)
  exact ⟨rfl, by decide, h.1, h.2.2.2.2.2.2.2.2⟩

/-! ## Claim C5: final-result shape and stop semantics -/

theorem run_batches_stop0 (env : Env) (cache : List String) (skipEx : Bool)
    (stopAt : Nat → Bool) (h0 : stopAt 0 = true) (bss : List (List Row)) :
    run_batches env cache skipEx stopAt 0 bss = [] := by
  cases bss <;> simp [run_batches, h0]

/-- Claim C5 fails in one detail: the fatal cache-failure result does not
report the `new`/`updated`/`skipped` counters at all (the dictionary of
lines 1088-1094 omits those keys), so the result does not always carry all
five counters. -/
theorem claim_C5_counterexample :
    ¬ ((batch_process_products failingPagesEnv {} [rowA1] true 100
          (fun _ => false)).result.new.isSome = true ∧
       (batch_process_products failingPagesEnv {} [rowA1] true 100
          (fun _ => false)).result.updated.isSome = true ∧
       (batch_process_products failingPagesEnv {} [rowA1] true 100
          (fun _ => false)).result.skipped.isSome = true) := by
  decide

/-- Claim C5 (amended): every run that passes the cache warm-up (update mode,
cache already loaded, or successful build) reports all of
`total/new/updated/skipped/errors` — including on partial failure and on
user-requested stop; `success` is exactly `errors = 0`, so a stop is not
reported as failure, and an immediate stop contributes no errors.  Only the
fatal cache-build failure result omits the `new`/`updated`/`skipped` keys. -/
theorem claim_C5_amended (env : Env) (st : UploaderState) (rows : List Row)
    (skipEx : Bool) (bs : Nat) (stopAt : Nat → Bool)
    (hcache : skipEx = true → st.cacheLoaded = false →
      (load_all_existing_products env.pages (brand_filters rows)).isSome = true) :
    (batch_process_products env st rows skipEx bs stopAt).result.new.isSome = true ∧
    (batch_process_products env st rows skipEx bs stopAt).result.updated.isSome = true ∧
    (batch_process_products env st rows skipEx bs stopAt).result.skipped.isSome = true ∧
    (batch_process_products env st rows skipEx bs stopAt).result.total = rows.length ∧
    ((batch_process_products env st rows skipEx bs stopAt).result.success = true
      ↔ (batch_process_products env st rows skipEx bs stopAt).result.errors = 0) ∧
    (stopAt 0 = true →
      (batch_process_products env st rows skipEx bs stopAt).result.errors = 0 ∧
      (batch_process_products env st rows skipEx bs stopAt).result.success = true) := by
  have main : ∀ (cache : List String) (builds : Nat) (st2 : UploaderState),
      (batch_process_products env st rows skipEx bs stopAt =
        { result :=
            { success := (sumBy (fun b => b.errors)
                (run_batches env cache skipEx stopAt 0 (chunksOf bs rows)) == 0)
              uploaded := sumBy (fun b => b.processed)
                (run_batches env cache skipEx stopAt 0 (chunksOf bs rows))
              new := some (sumBy (fun b => b.new)
                (run_batches env cache skipEx stopAt 0 (chunksOf bs rows)))
              updated := some (sumBy (fun b => b.updated)
                (run_batches env cache skipEx stopAt 0 (chunksOf bs rows)))
              skipped := some (sumBy (fun b => b.skipped)
                (run_batches env cache skipEx stopAt 0 (chunksOf bs rows)))
              errors := sumBy (fun b => b.errors)
                (run_batches env cache skipEx stopAt 0 (chunksOf bs rows))
              total := rows.length }
          state := st2
          cacheBuilds := builds
          batches := run_batches env cache skipEx stopAt 0 (chunksOf bs rows) }) →
      (batch_process_products env st rows skipEx bs stopAt).result.new.isSome = true ∧
      (batch_process_products env st rows skipEx bs stopAt).result.updated.isSome = true ∧
      (batch_process_products env st rows skipEx bs stopAt).result.skipped.isSome = true ∧
      (batch_process_products env st rows skipEx bs stopAt).result.total = rows.length ∧
      ((batch_process_products env st rows skipEx bs stopAt).result.success = true
        ↔ (batch_process_products env st rows skipEx bs stopAt).result.errors = 0) ∧
      (stopAt 0 = true →
        (batch_process_products env st rows skipEx bs stopAt).result.errors = 0 ∧
        (batch_process_products env st rows skipEx bs stopAt).result.success = true) := by
    intro cache builds st2 h1
    rw [h1]
    refine ⟨rfl, rfl, rfl, rfl, beq_iff_eq, ?_⟩
    intro h0
    rw [run_batches_stop0 env cache skipEx stopAt h0]
    exact ⟨rfl, rfl⟩
  cases skipEx with
  | false =>
      exact main [] 0 { existingCache := [], cacheLoaded := true }
        (by simp [batch_process_products])
  | true =>
      cases hld : st.cacheLoaded with
      | true =>
          exact main st.existingCache 0 st (by simp [batch_process_products, hld])
      | false =>
          have hsome := hcache rfl hld
          cases hload : load_all_existing_products env.pages (brand_filters rows) with
          | none => rw [hload] at hsome; simp at hsome
          | some entries =>
              exact main entries 1 { existingCache := entries, cacheLoaded := true }
                (by simp [batch_process_products, hld, hload])

/-- Instance of the amended claim C5 on a completed update-mode run: all
counters reported, `total = 1`. -/
theorem claim_C5_amended_witness :
    (batch_process_products baseEnv {} [rowA1] false 100
      (fun _ => false)).result.new.isSome = true ∧
    (batch_process_products baseEnv {} [rowA1] false 100
      (fun _ => false)).result.skipped.isSome = true ∧
    (batch_process_products baseEnv {} [rowA1] false 100
      (fun _ => false)).result.total = 1 := by
  have h := claim_C5_amended baseEnv {} [rowA1] false 100 (fun _ => false)
    (fun hh _ => nomatch hh)
  exact ⟨h.1, h.2.2.1, h.2.2.2.1⟩

/-! ## Claim C9: stale cache-loaded flag after an update-mode run -/

theorem skip_filter_nil_cache (rows : List Row) :
    skip_filter [] rows
      = { keep := rows.filter (fun r => !(pyStrip r.sku == "")),
          skipped := 0,
          errors := rows.countP (fun r => pyStrip r.sku == "") } := by
  induction rows with
  | nil => rfl
  | cons r rest ih =>
      simp only [skip_filter, ih]
      by_cases hs : pyStrip r.sku = ""
      · simp [hs, List.filter_cons, List.countP_cons]
      · simp [hs, List.filter_cons, List.countP_cons]

theorem prep_filterMap_of_sku (env : Env) :
    ∀ l : List Row, (∀ r ∈ l, ¬ pyStrip r.sku = "") →
      (l.map (prepare_product_data_task env)).filterMap prepSuccessData
        = (l.filter (fun r => !env.prepFails r)).map (create_product_data env) := by
  intro l
  induction l with
  | nil => intro _; rfl
  | cons r rest ih =>
      intro hall
      have hr : ¬ pyStrip r.sku = "" := hall r (List.mem_cons_self r rest)
      have hrest := ih fun x hx => hall x (List.mem_cons_of_mem r hx)
      by_cases hp : env.prepFails r = true
      · simp [List.map_cons, List.filterMap_cons, prepare_product_data_task, hr, hp,
          List.filter_cons, prepSuccessData, hrest]
      · simp only [Bool.not_eq_true] at hp
        simp [List.map_cons, List.filterMap_cons, prepare_product_data_task, hr, hp,
          List.filter_cons, prepSuccessData, hrest]

theorem skip_batch_creates (env : Env) (b : List Row) :
    (process_batch_skip env [] b).createChunks.flatten
      = ((b.filter (fun r => !(pyStrip r.sku == ""))).filter
          (fun r => !env.prepFails r)).map (create_product_data env) := by
  simp only [process_batch_skip]
  rw [chunksOf_flatten 25 (by decide), skip_filter_nil_cache]
  exact prep_filterMap_of_sku env _ fun r hr => by
    have hm := List.of_mem_filter hr
    simpa using hm

theorem skip_run_creates (env : Env) :
    ∀ (i : Nat) (bss : List (List Row)),
      ((run_batches env [] true (fun _ => false) i bss).map
          (fun b => b.createChunks.flatten)).flatten
        = ((bss.flatten.filter (fun r => !(pyStrip r.sku == ""))).filter
            (fun r => !env.prepFails r)).map (create_product_data env) := by
  intro i bss
  induction bss generalizing i with
  | nil => rfl
  | cons b rest ih =>
      rw [run_batches, if_neg Bool.false_ne_true]
      have hpb : process_batch env [] true b = process_batch_skip env [] b := rfl
      rw [List.map_cons, List.flatten_cons, hpb, skip_batch_creates, ih (i + 1)]
      simp [List.filter_append, List.map_append]

theorem skip_run_skipped (env : Env) :
    ∀ (i : Nat) (bss : List (List Row)),
      sumBy (fun b => b.skipped) (run_batches env [] true (fun _ => false) i bss) = 0 := by
  intro i bss
  induction bss generalizing i with
  | nil => rfl
  | cons b rest ih =>
      rw [run_batches, if_neg Bool.false_ne_true, sumBy_cons]
      have hb : (process_batch env [] true b).skipped = 0 := by
        have hpb : process_batch env [] true b = process_batch_skip env [] b := rfl
        rw [hpb]
        simp [process_batch_skip, skip_filter_nil_cache]
      rw [hb, ih (i + 1)]

/-- Claim C9 (implicit behaviour): an update-existing run clears the
existing-product cache and sets the cache-loaded flag, so a subsequent
skip-existing run on the same uploader never rebuilds the cache
(`cacheBuilds = 0`), skips nothing (`skipped = some 0`), and submits a create
for every SKU-bearing row that survives assembly — including rows that
already exist remotely. -/
theorem claim_C9_stale_cache_flag (env : Env) (st : UploaderState)
    (rows1 rows2 : List Row) (bs : Nat) (hbs : bs ≠ 0) :
    (batch_process_products env st rows1 false bs (fun _ => false)).state
      = { existingCache := [], cacheLoaded := true } ∧
    (batch_process_products env
        (batch_process_products env st rows1 false bs (fun _ => false)).state rows2 true bs
        (fun _ => false)).cacheBuilds = 0 ∧
    (batch_process_products env
        (batch_process_products env st rows1 false bs (fun _ => false)).state rows2 true bs
        (fun _ => false)).result.skipped = some 0 ∧
    attempted_creates (batch_process_products env
        (batch_process_products env st rows1 false bs (fun _ => false)).state rows2 true bs
        (fun _ => false))
      = ((rows2.filter (fun r => !(pyStrip r.sku == ""))).filter
          (fun r => !env.prepFails r)).map (create_product_data env) := by
  have hst : (batch_process_products env st rows1 false bs (fun _ => false)).state
      = { existingCache := [], cacheLoaded := true } := by
    simp [batch_process_products]
  refine ⟨hst, ?_, ?_, ?_⟩
  · rw [hst]
    simp [batch_process_products]
  · rw [hst]
    simp [batch_process_products, skip_run_skipped]
  · rw [hst]
    have h2 : batch_process_products env { existingCache := [], cacheLoaded := true }
        rows2 true bs (fun _ => false)
        = batch_process_products env { existingCache := [], cacheLoaded := true }
            rows2 true bs (fun _ => false) := rfl
    simp only [batch_process_products, if_true, attempted_creates]
    rw [skip_run_creates env 0 (chunksOf bs rows2), chunksOf_flatten bs hbs]

/-- Instance of claim C9: after an update run, a skip run on `[rowA1]` with
the stale flag rebuilds nothing and skips nothing. -/
theorem claim_C9_witness :
    (100 : Nat) ≠ 0 ∧
    (batch_process_products baseEnv
        (batch_process_products baseEnv {} [rowB1] false 100 (fun _ => false)).state
        [rowA1] true 100 (fun _ => false)).cacheBuilds = 0 ∧
    (batch_process_products baseEnv
        (batch_process_products baseEnv {} [rowB1] false 100 (fun _ => false)).state
        [rowA1] true 100 (fun _ => false)).result.skipped = some 0 := by
  have h := claim_C9_stale_cache_flag baseEnv {} [rowB1] [rowA1] 100 (by decide)
  exact ⟨by decide, h.2.1, h.2.2.1⟩

end WcUploader
